import Mathlib

/-!
Shallow embedding of the Sparv job lifecycle logic of mink-backend
(src/mink/jobs.py), together with the persistence and remote-command
model needed to state properties about it.  Timestamps are modelled as
rational numbers of seconds, remote commands as an inductive tag type,
and every mutating method of class Job as a function on an explicit
effect state (job record, store, queue, issued-command trace).
-/

namespace Mink

/-- Result of a remote (ssh) or local subprocess invocation: exit code
and captured, decoded stdout/stderr. -/
structure SSHResult where
  returncode : Int
  stdout : String
  stderr : String
deriving DecidableEq

/-- Job status, from class Status(IntEnum) in jobs.py.  The numeric
enum value is the definition index; only the symbolic name matters for
the logic modelled here. -/
inductive Status where
  | none
  | syncing_corpus
  | waiting
  | annotating
  | done_annotating
  | syncing_results
  | done_syncing
  | waiting_install
  | installing
  | done_installing
  | error
  | aborted
deriving DecidableEq

/-- Status.is_active from jobs.py. -/
def Status.is_active : Status → Bool
  | .syncing_corpus | .waiting | .annotating | .waiting_install | .installing => true
  | _ => false

/-- Status.is_inactive from jobs.py. -/
def Status.is_inactive : Status → Bool
  | .done_syncing | .done_installing | .error | .aborted => true
  | _ => false

/-- Status.is_syncing from jobs.py. -/
def Status.is_syncing : Status → Bool
  | .syncing_corpus | .syncing_results => true
  | _ => false

/-- Status.is_waiting from jobs.py. -/
def Status.is_waiting : Status → Bool
  | .waiting | .waiting_install => true
  | _ => false

/-- Status.is_running from jobs.py. -/
def Status.is_running : Status → Bool
  | .annotating | .installing => true
  | _ => false

/-- Status.is_done_processing from jobs.py. -/
def Status.is_done_processing : Status → Bool
  | .done_annotating | .done_syncing | .done_installing => true
  | _ => false

/-- Status.has_process_output from jobs.py. -/
def Status.has_process_output : Status → Bool
  | .annotating | .done_annotating | .syncing_results | .done_syncing
  | .installing | .done_installing | .error => true
  | _ => false

/-- The symbolic member name of a status (Python: self.status.name). -/
def Status.name : Status → String
  | .none => "none"
  | .syncing_corpus => "syncing_corpus"
  | .waiting => "waiting"
  | .annotating => "annotating"
  | .done_annotating => "done_annotating"
  | .syncing_results => "syncing_results"
  | .done_syncing => "done_syncing"
  | .waiting_install => "waiting_install"
  | .installing => "installing"
  | .done_installing => "done_installing"
  | .error => "error"
  | .aborted => "aborted"

/-- Member lookup by symbolic name (Python: getattr(Status, name) in
load_from_str; an unknown name raises, modelled as Option.none). -/
def Status.ofName (s : String) : Option Status :=
  if s = "none" then some Status.none
  else if s = "syncing_corpus" then some Status.syncing_corpus
  else if s = "waiting" then some Status.waiting
  else if s = "annotating" then some Status.annotating
  else if s = "done_annotating" then some Status.done_annotating
  else if s = "syncing_results" then some Status.syncing_results
  else if s = "done_syncing" then some Status.done_syncing
  else if s = "waiting_install" then some Status.waiting_install
  else if s = "installing" then some Status.installing
  else if s = "done_installing" then some Status.done_installing
  else if s = "error" then some Status.error
  else if s = "aborted" then some Status.aborted
  else Option.none

/-- The mutable fields of class Job (jobs.py, Job.__init__).  The
config-derived fields (sparv_user, server, file names) carry no state
and are omitted; timestamps are rational seconds. -/
structure Job where
  corpus_id : String
  user_id : Option String
  contact : Option String
  status : Status
  pid : Option Int
  started : Option ℚ
  done : Option ℚ
  sparv_done : Option ℚ
  sparv_exports : List String
  files : List String
  available_files : List String
  install_scrambled : Option Bool
  installed_korp : Bool
  latest_seconds_taken : ℚ
  progress_output : String
deriving DecidableEq

/-- The serialized form written by Job.__str__ (a flat json object;
the status is stored by its symbolic name).  sparv_done and
progress_output are not part of the dump. -/
structure PersistedJob where
  user_id : Option String
  contact : Option String
  corpus_id : String
  statusName : String
  pid : Option Int
  started : Option ℚ
  done : Option ℚ
  sparv_exports : List String
  files : List String
  available_files : List String
  install_scrambled : Option Bool
  installed_korp : Bool
  latest_seconds_taken : ℚ
deriving DecidableEq

/-- Job.__str__ from jobs.py: dump the persisted fields, with the
status by symbolic name. -/
def Job.dump (j : Job) : PersistedJob :=
  { user_id := j.user_id, contact := j.contact, corpus_id := j.corpus_id,
    statusName := j.status.name, pid := j.pid, started := j.started,
    done := j.done, sparv_exports := j.sparv_exports, files := j.files,
    available_files := j.available_files,
    install_scrambled := j.install_scrambled,
    installed_korp := j.installed_korp,
    latest_seconds_taken := j.latest_seconds_taken }

/-- The two persistence targets of Job.save: the cache client and the
file-system queue directory, both keyed by corpus id. -/
structure Store where
  cache : String → Option PersistedJob
  fsQueue : String → Option PersistedJob

/-- Pointwise update of one key of a persistence map. -/
def putKey (f : String → Option PersistedJob) (k : String) (v : Option PersistedJob) :
    String → Option PersistedJob :=
  fun k2 => if k2 = k then v else f k2

/-- The remote commands issued over ssh by jobs.py, abstracted from
their shell-string form (command construction details are opaque to
every property proved here). -/
inductive RemoteCmd where
  | kill0 (pid : Int)
  | killTerm (pid : Int)
  | catNohup (corpus_id : String)
  | mkdirCorpus (corpus_id : String)
  | runScript (corpus_id : String)
  | installScript (corpus_id : String) (scrambled : Bool)
  | cleanAll (corpus_id : String)
  | cleanExportCmd (corpus_id : String)
  | rmrfCorpus (corpus_id : String)
deriving DecidableEq

/-- The exceptions raised by jobs.py (mink.exceptions plus plain
Exception plus Python runtime errors such as ValueError). -/
inductive JobErr where
  | processNotRunning (msg : String)
  | processNotFound (msg : String)
  | jobError (msg : String)
  | exn (msg : String)
  | pyError (msg : String)
deriving DecidableEq

/-- Decidable equality for operation results. -/
instance instDecEqExcept {α β : Type} [DecidableEq α] [DecidableEq β] :
    DecidableEq (Except α β) := fun a b =>
  match a, b with
  | Except.ok x, Except.ok y =>
    if h : x = y then isTrue (by rw [h]) else isFalse (by intro hc; cases hc; exact h rfl)
  | Except.error x, Except.error y =>
    if h : x = y then isTrue (by rw [h]) else isFalse (by intro hc; cases hc; exact h rfl)
  | Except.ok _, Except.error _ => isFalse (by intro hc; cases hc)
  | Except.error _, Except.ok _ => isFalse (by intro hc; cases hc)

/-- The external world an operation runs against: the remote command
channel, the current wall clock, the local rsync/storage transfer
outcomes of the sync operations, and the storage.local flag.

storageLocal is modelled from the spec: module mink.sparv.storage is
not under src/; per the spec it exposes a flag telling whether the
results location is already local. -/
structure World where
  remote : RemoteCmd → SSHResult
  now : ℚ
  storageLocal : Bool
  downloadOk : Bool
  rsyncConfig : SSHResult
  rsyncSource : SSHResult
  rsyncExports : SSHResult
  rsyncWork : SSHResult
  uploadExportsOk : Bool
  uploadWorkOk : Bool

/-- The full mutable state an operation acts on: the in-memory job,
the persistence store, the job queue (corpus ids), and the trace of
remote commands issued so far. -/
structure Eff where
  job : Job
  store : Store
  queued : List String
  cmds : List RemoteCmd

/-- Job.save: write the dump to the cache and to the file-system
backup. -/
def save (e : Eff) : Eff :=
  { e with store :=
      { cache := putKey e.store.cache e.job.corpus_id (some e.job.dump),
        fsQueue := putKey e.store.fsQueue e.job.corpus_id (some e.job.dump) } }

/-- Job.set_status: change the status and save, but only when it
actually changes. -/
def setStatus (e : Eff) (s : Status) : Eff :=
  if e.job.status = s then e
  else save { e with job := { e.job with status := s } }

/-- Job.set_pid: set the pid and save unconditionally. -/
def setPid (e : Eff) (p : Option Int) : Eff :=
  save { e with job := { e.job with pid := p } }

/-- Job.set_latest_seconds_taken: set and save, only when changed. -/
def setLatestSecondsTaken (e : Eff) (q : ℚ) : Eff :=
  if e.job.latest_seconds_taken = q then e
  else save { e with job := { e.job with latest_seconds_taken := q } }

/-- Job.reset_time: clear the timing fields and save. -/
def resetTime (e : Eff) : Eff :=
  save { e with job := { e.job with latest_seconds_taken := 0,
                                    started := Option.none,
                                    done := Option.none,
                                    sparv_done := Option.none } }

/-- utils.ssh_run: issue a remote command, recording it in the trace,
and obtain its result from the world. -/
def ssh (e : Eff) (w : World) (c : RemoteCmd) : Eff × SSHResult :=
  ({ e with cmds := e.cmds ++ [c] }, w.remote c)

/-- Modelled from the spec: module mink.queue is not under src/; per
the spec, aborting a waiting job simply dequeues it (queue.remove). -/
def queueRemove (e : Eff) : Eff :=
  { e with queued := e.queued.filter (fun c => c ≠ e.job.corpus_id) }

/-!
The output parser of Job.get_output: classify the lines of the nohup
file with the regexes of jobs.py, restricted to their ASCII semantics.
-/

/-- Split a character list at newline characters (the semantics of
the Python str.split with a newline separator). -/
def splitLinesChars : List Char → List (List Char)
  | [] => [[]]
  | c :: r =>
    if c = '\n' then [] :: splitLinesChars r
    else
      match splitLinesChars r with
      | [] => [[c]]
      | h :: t => (c :: h) :: t

/-- str.split on a newline separator. -/
def splitLines (s : String) : List String :=
  (splitLinesChars s.data).map String.mk

/-- Whether the first list is an initial segment of the second. -/
def charsLead : List Char → List Char → Bool
  | [], _ => true
  | _ :: _, [] => false
  | a :: as, b :: bs => a = b ∧ charsLead as bs

/-- str.startswith. -/
def strStartsWith (s pat : String) : Bool :=
  charsLead pat.data s.data

/-- str.endswith. -/
def strEndsWith (s pat : String) : Bool :=
  charsLead pat.data.reverse s.data.reverse

/-- str.join over a separator. -/
def joinWith (sep : String) : List String → String
  | [] => ""
  | [x] => x
  | x :: y :: xs => x ++ sep ++ joinWith sep (y :: xs)

/-- A whitespace character as matched by the regex class \s (ASCII
part) and stripped by str.strip(). -/
def isPySpace (c : Char) : Bool :=
  c = ' ' ∨ c = '\t' ∨ c = '\n' ∨ c = '\r' ∨ c = '\x0b' ∨ c = '\x0c'

/-- A decimal digit as matched by the regex class \d (ASCII part). -/
def isPyDigit (c : Char) : Bool :=
  '0' ≤ c ∧ c ≤ '9'

/-- An uppercase letter as matched by the regex class [A-Z]. -/
def isUpperAZ (c : Char) : Bool :=
  'A' ≤ c ∧ c ≤ 'Z'

/-- str.strip() on a character list. -/
def pyStripList (l : List Char) : List Char :=
  ((l.dropWhile isPySpace).reverse.dropWhile isPySpace).reverse

/-- str.strip(). -/
def pyStrip (s : String) : String :=
  String.mk (pyStripList s.data)

/-- The timestamp alternative of the tag regex: eight characters of
shape dd:dd:dd. -/
def isTimestamp8 : List Char → Bool
  | [a, b, c, d, e, f, g, h] =>
    isPyDigit a ∧ isPyDigit b ∧ c = ':' ∧ isPyDigit d ∧ isPyDigit e ∧
    f = ':' ∧ isPyDigit g ∧ isPyDigit h
  | _ => false

/-- Group matching of the line regex used in Job.get_output, with
backtracking semantics: an eight-character timestamp or eight
whitespace characters, a space, an uppercase tag, at least one
whitespace character, then the rest of the line (at least one
character, possibly the last whitespace character itself when nothing
follows).  Returns the tag and the raw second group. -/
def matchTag (line : String) : Option (String × String) :=
  let ls := line.data
  if ls.length < 9 then Option.none
  else
    let pre := ls.take 8
    let rest := ls.drop 8
    if isTimestamp8 pre ∨ pre.all isPySpace then
      match rest with
      | ' ' :: r2 =>
        let tag := r2.takeWhile isUpperAZ
        let r3 := r2.dropWhile isUpperAZ
        let k := (r3.takeWhile isPySpace).length
        if tag = [] ∨ k = 0 then Option.none
        else if k < r3.length then some (String.mk tag, String.mk (r3.drop k))
        else if 2 ≤ k then some (String.mk tag, String.mk (r3.drop (k - 1)))
        else Option.none
      | _ => Option.none
    else Option.none

/-- The line-continuation regex of Job.get_output: at least eight
leading whitespace characters and at least nine characters in all. -/
def isContinuation (line : String) : Bool :=
  8 ≤ (line.data.takeWhile isPySpace).length ∧ 9 ≤ line.data.length

/-- The wall-clock-time regex of Job.get_output: the five characters
of the word real and a space, a digit, and at least one further
character. -/
def isRealLine (line : String) : Bool :=
  match line.data with
  | 'r' :: 'e' :: 'a' :: 'l' :: ' ' :: d :: _ :: _ => isPyDigit d
  | _ => false

/-- The user/sys regex of Job.get_output.  The alternation binds
loosely: any line starting with the word user matches, while the sys
alternative requires a space, a digit and a further character. -/
def isUserSysLine (line : String) : Bool :=
  match line.data with
  | 'u' :: 's' :: 'e' :: 'r' :: _ => true
  | 's' :: 'y' :: 's' :: ' ' :: d :: _ :: _ => isPyDigit d
  | _ => false

/-- Fold a digit list into a natural number. -/
def digitsToNat (l : List Char) : Nat :=
  l.foldl (fun a c => a * 10 + (c.toNat - '0'.toNat)) 0

/-- Exponent part of a Python float literal. -/
def parseExpPart (base : ℚ) : List Char → Option ℚ
  | [] => some base
  | c :: r =>
    if c = 'e' ∨ c = 'E' then
      match r with
      | '+' :: d =>
        if d ≠ [] ∧ d.all isPyDigit then some (base * 10 ^ digitsToNat d) else Option.none
      | '-' :: d =>
        if d ≠ [] ∧ d.all isPyDigit then some (base / 10 ^ digitsToNat d) else Option.none
      | d =>
        if d ≠ [] ∧ d.all isPyDigit then some (base * 10 ^ digitsToNat d) else Option.none
    else Option.none

/-- Unsigned decimal part of a Python float literal: integer digits,
an optional point with fraction digits, an optional exponent; at least
one digit before or after the point. -/
def parsePyFloatUnsigned (l : List Char) : Option ℚ :=
  let ip := l.takeWhile isPyDigit
  let r1 := l.dropWhile isPyDigit
  match r1 with
  | '.' :: r2 =>
    let fp := r2.takeWhile isPyDigit
    let r3 := r2.dropWhile isPyDigit
    if ip = [] ∧ fp = [] then Option.none
    else parseExpPart ((digitsToNat ip : ℚ) + (digitsToNat fp : ℚ) / (10 ^ fp.length : ℚ)) r3
  | _ =>
    if ip = [] then Option.none
    else parseExpPart (digitsToNat ip : ℚ) r1

/-- Model of the Python float() constructor on an already stripped
string (numeric literals; a failure, Option.none, stands for the
ValueError float() raises). -/
def parsePyFloat (s : String) : Option ℚ :=
  match s.data with
  | '-' :: r => (parsePyFloatUnsigned r).map (fun q => -q)
  | '+' :: r => parsePyFloatUnsigned r
  | r => parsePyFloatUnsigned r

/-- Model of the Python int() constructor (strips whitespace, optional
sign, decimal digits; Option.none stands for the ValueError). -/
def parsePyInt (s : String) : Option Int :=
  match pyStripList s.data with
  | '-' :: d =>
    if d ≠ [] ∧ d.all isPyDigit then some (-(digitsToNat d : Int)) else Option.none
  | '+' :: d =>
    if d ≠ [] ∧ d.all isPyDigit then some (digitsToNat d : Int) else Option.none
  | d =>
    if d ≠ [] ∧ d.all isPyDigit then some (digitsToNat d : Int) else Option.none

/-- Which message list latest_msg currently aliases in the parsing
loop of Job.get_output. -/
inductive MsgCat where
  | warn
  | err
  | misc
deriving DecidableEq

/-- The loop state of Job.get_output: the collected progress string,
warning, error and misc lists, the latest_msg alias, and the
sparv_done timestamp (mutated directly on the job by real lines). -/
structure ParseSt where
  progress : String
  warnings : List String
  errors : List String
  misc : List String
  latest : MsgCat
  sparv_done : Option ℚ
deriving DecidableEq

/-- Append to the list latest_msg aliases. -/
def appendLatest (st : ParseSt) (m : String) : ParseSt :=
  match st.latest with
  | .warn => { st with warnings := st.warnings ++ [m] }
  | .err => { st with errors := st.errors ++ [m] }
  | .misc => { st with misc := st.misc ++ [m] }

/-- One iteration of the line loop of Job.get_output.  Option.none
stands for an uncaught Python exception: float() failing on a real
line, or isoparse(None) when started is absent. -/
def processLine (started : Option ℚ) (st : ParseSt) (line : String) : Option ParseSt :=
  match matchTag line with
  | some (tag, g2) =>
    let msg := pyStrip g2
    if tag = "PROGRESS" then some { st with progress := msg }
    else if tag = "WARNING" then
      some { st with warnings := st.warnings ++ [tag ++ " " ++ msg], latest := MsgCat.warn }
    else if tag = "ERROR" then
      some { st with errors := st.errors ++ [tag ++ " " ++ msg], latest := MsgCat.err }
    else some st
  | Option.none =>
    if isContinuation line then some (appendLatest st (pyStrip line))
    else if isRealLine line then
      match parsePyFloat (pyStrip (String.mk (line.data.drop 5))) with
      | some secs =>
        match started with
        | some t => some { st with sparv_done := some (t + secs) }
        | Option.none => Option.none
      | Option.none => Option.none
    else if isUserSysLine line then some st
    else if pyStrip line ≠ "" then some { st with misc := st.misc ++ [pyStrip line] }
    else some st

/-- Run the line loop; on the first exception, stop and keep the state
reached so far (mutations already made to the job persist). -/
def runLines (started : Option ℚ) : ParseSt → List String → ParseSt × Bool
  | st, [] => (st, true)
  | st, l :: ls =>
    match processLine started st l with
    | some st2 => runLines started st2 ls
    | Option.none => (st, false)

/-- The structured result of a completed parse of Job.get_output: the
joined warning, error and misc strings, the progress string after the
no-op special rule, and the sparv_done timestamp. -/
structure ParsedOutput where
  progress : String
  warnings : String
  errors : String
  misc : String
  sparv_done : Option ℚ
deriving DecidableEq

/-- The post-loop step of Job.get_output: join the lists and apply the
special rule turning a misc text starting with the no-op marker into
full progress. -/
def finalizeParse (st : ParseSt) : ParsedOutput :=
  let misc := joinWith "\n" st.misc
  { progress := if strStartsWith misc "Nothing to be done." then "100%" else st.progress,
    warnings := joinWith "\n" st.warnings,
    errors := joinWith "\n" st.errors,
    misc := misc,
    sparv_done := st.sparv_done }

/-- Parse a non-empty stripped nohup text, as the body of the if
stdout branch of Job.get_output does: run the loop from the initial
state (latest_msg aliasing misc, sparv_done carried over from the
job), then finalize.  On an exception, Option.none, paired with the
sparv_done value reached so far. -/
def parseNohup (started : Option ℚ) (sparvDone0 : Option ℚ) (text : String) :
    Option ParsedOutput × Option ℚ :=
  let st0 : ParseSt :=
    { progress := "", warnings := [], errors := [], misc := [],
      latest := MsgCat.misc, sparv_done := sparvDone0 }
  let r := runLines started st0 (splitLines text)
  if r.2 then (some (finalizeParse r.1), r.1.sparv_done)
  else (Option.none, r.1.sparv_done)

/-- Whether some line of the text carries a PROGRESS tag under the
line regex. -/
def hasProgressLine (text : String) : Bool :=
  (splitLines text).any fun l =>
    match matchTag l with
    | some (tag, _) => tag = "PROGRESS"
    | Option.none => false

/-!
The Job operations of jobs.py, as functions on the effect state.
-/

/-- Job.get_output: with no process output expected, return empty
strings without touching anything; otherwise cat the nohup file over
ssh and, when the stripped text is non-empty, parse it, store the
parsed progress in progress_output and the time line result in
sparv_done.  An exception during parsing is surfaced after the partial
sparv_done mutation. -/
def getOutput (e : Eff) (w : World) : Eff × Except JobErr (String × String × String) :=
  if ¬ e.job.status.has_process_output then (e, Except.ok ("", "", ""))
  else
    let er := ssh e w (RemoteCmd.catNohup e.job.corpus_id)
    let e1 := er.1
    let stdout := pyStrip er.2.stdout
    if stdout = "" then (e1, Except.ok ("", "", ""))
    else
      let pr := parseNohup e1.job.started e1.job.sparv_done stdout
      match pr.1 with
      | some po =>
        let j2 := { e1.job with sparv_done := pr.2, progress_output := po.progress }
        ({ e1 with job := j2 }, Except.ok (po.warnings, po.errors, po.misc))
      | Option.none =>
        let j2 := { e1.job with sparv_done := pr.2 }
        ({ e1 with job := j2 }, Except.error (JobErr.pyError "output parsing failed"))

/-- The pid-liveness head of Job.process_running: when a truthy pid is
recorded, probe it with kill -0; alive means return right away, dead
means clear the pid.  A falsy pid (absent or zero) skips the probe.
Returns the state and whether the process was found alive. -/
def probePid (e : Eff) (w : World) : Eff × Bool :=
  match e.job.pid with
  | some p =>
    if p ≠ 0 then
      let er := ssh e w (RemoteCmd.kill0 p)
      if er.2.returncode = 0 then (er.1, true)
      else (setPid er.1 Option.none, false)
    else (e, false)
  | Option.none => (e, false)

/-- Job.process_running, the poll step: probe the pid; if alive return
true unchanged; otherwise fetch and parse the output and transition on
the stored progress: at 100 percent, annotating becomes done_syncing
when storage is local and done_annotating otherwise, installing
becomes done_installing, anything else stays; below 100 percent the
status becomes error. -/
def processRunning (e : Eff) (w : World) : Eff × Except JobErr Bool :=
  let pb := probePid e w
  if pb.2 then (pb.1, Except.ok true)
  else
    let go := getOutput pb.1 w
    match go.2 with
    | Except.error ex => (go.1, Except.error ex)
    | Except.ok _ =>
      let e2 := go.1
      if e2.job.progress_output = "100%" then
        if e2.job.status = Status.annotating then
          if w.storageLocal then (setStatus e2 Status.done_syncing, Except.ok false)
          else (setStatus e2 Status.done_annotating, Except.ok false)
        else if e2.job.status = Status.installing then
          (setStatus e2 Status.done_installing, Except.ok false)
        else (e2, Except.ok false)
      else (setStatus e2 Status.error, Except.ok false)

/-- Job.run_sparv: record the start time, launch the detached run
script remotely; a non-zero exit resets the timing fields, sets error
and raises JobError; otherwise the echoed pid is parsed (a parse
failure raises without further state change) and the job becomes
annotating with that pid. -/
def runSparv (e : Eff) (w : World) : Eff × Except JobErr Unit :=
  let e0 := { e with job := { e.job with started := some w.now } }
  let er := ssh e0 w (RemoteCmd.runScript e.job.corpus_id)
  let e1 := er.1
  if er.2.returncode ≠ 0 then
    (setStatus (resetTime e1) Status.error,
     Except.error (JobErr.jobError ("Failed to run Sparv! " ++ er.2.stderr)))
  else
    match parsePyInt er.2.stdout with
    | some pid => (setStatus (setPid e1 (some pid)) Status.annotating, Except.ok ())
    | Option.none => (e1, Except.error (JobErr.pyError "invalid pid echo"))

/-- Job.install_korp: like run_sparv but with the install script; on
success installed_korp is set (it is set before the pid parse, so a
pid parse failure still leaves it set), and the job becomes installing
with the echoed pid. -/
def installKorp (e : Eff) (w : World) : Eff × Except JobErr Unit :=
  let e0 := { e with job := { e.job with started := some w.now } }
  let er := ssh e0 w
    (RemoteCmd.installScript e.job.corpus_id (e.job.install_scrambled = some true))
  let e1 := er.1
  if er.2.returncode ≠ 0 then
    (setStatus (resetTime e1) Status.error,
     Except.error (JobErr.jobError ("Failed to install corpus with Sparv. " ++ er.2.stderr)))
  else
    let e2 := { e1 with job := { e1.job with installed_korp := true } }
    match parsePyInt er.2.stdout with
    | some pid => (setStatus (setPid e2 (some pid)) Status.installing, Except.ok ())
    | Option.none => (e2, Except.error (JobErr.pyError "invalid pid echo"))

/-- Job.abort_sparv: a waiting job is dequeued and aborted with no
remote call; a non-running job raises ProcessNotRunning; a running job
with falsy pid (absent or zero) raises ProcessNotFound; otherwise a
SIGTERM is sent, with exit 0 or a no-such-process stderr ending
counting as success (pid cleared, status aborted) and anything else
raising JobError. -/
def abortSparv (e : Eff) (w : World) : Eff × Except JobErr Unit :=
  if e.job.status.is_waiting then
    (setStatus (queueRemove e) Status.aborted, Except.ok ())
  else if ¬ e.job.status.is_running then
    (e, Except.error (JobErr.processNotRunning "Failed to abort job because Sparv was not running!"))
  else
    match e.job.pid with
    | Option.none =>
      (e, Except.error (JobErr.processNotFound "Failed to abort job because no process ID was found!"))
    | some p =>
      if p = 0 then
        (e, Except.error (JobErr.processNotFound "Failed to abort job because no process ID was found!"))
      else
        let er := ssh e w (RemoteCmd.killTerm p)
        if er.2.returncode = 0 then
          (setStatus (setPid er.1 Option.none) Status.aborted, Except.ok ())
        else if strEndsWith er.2.stderr "Processen finns inte\n" ∨
                strEndsWith er.2.stderr "No such process\n" then
          (setStatus (setPid er.1 Option.none) Status.aborted, Except.ok ())
        else
          (er.1, Except.error (JobErr.jobError ("Failed to abort job! Error: " ++ er.2.stderr)))

/-- Job.sync_to_sparv: set syncing_corpus, create the remote corpus
dir, download from storage, rsync the config and the source files; any
failing hop sets error and raises; success sets waiting. -/
def syncToSparv (e : Eff) (w : World) : Eff × Except JobErr Unit :=
  let e0 := setStatus e Status.syncing_corpus
  let er := ssh e0 w (RemoteCmd.mkdirCorpus e.job.corpus_id)
  let e1 := er.1
  if er.2.stderr ≠ "" then
    (setStatus e1 Status.error,
     Except.error (JobErr.exn ("Failed to create corpus dir on Sparv server! " ++ er.2.stderr)))
  else if ¬ w.downloadOk then
    (setStatus e1 Status.error,
     Except.error (JobErr.exn "Failed to download corpus from the storage server!"))
  else if w.rsyncConfig.stderr ≠ "" then
    (setStatus e1 Status.error,
     Except.error (JobErr.exn ("Failed to copy corpus config file to Sparv server! " ++ w.rsyncConfig.stderr)))
  else if w.rsyncSource.stderr ≠ "" then
    (setStatus e1 Status.error,
     Except.error (JobErr.exn ("Failed to copy corpus files to Sparv server! " ++ w.rsyncSource.stderr)))
  else
    (setStatus e1 Status.waiting, Except.ok ())

/-- Job.sync_results: pull the exports (a failure sets error and
returns an error response, Except.ok false); the plain-text source
pull result is not checked; push exports and sources to storage (a
failure at either sets error and raises); success sets done_syncing
and is Except.ok true. -/
def syncResults (e : Eff) (w : World) : Eff × Except JobErr Bool :=
  if w.rsyncExports.stderr ≠ "" then
    (setStatus e Status.error, Except.ok false)
  else if ¬ w.uploadExportsOk then
    (setStatus e Status.error,
     Except.error (JobErr.exn "Failed to upload exports to the storage server!"))
  else if ¬ w.uploadWorkOk then
    (setStatus e Status.error,
     Except.error (JobErr.exn "Failed to upload plain text sources to the storage server!"))
  else
    (setStatus e Status.done_syncing, Except.ok true)

/-- Job.clean: run the remote clean-all command; a non-empty stderr
raises a plain Exception without touching the job state; otherwise the
non-empty stdout lines are joined into the informational result. -/
def cleanAllOp (e : Eff) (w : World) : Eff × Except JobErr String :=
  let er := ssh e w (RemoteCmd.cleanAll e.job.corpus_id)
  if er.2.stderr ≠ "" then (er.1, Except.error (JobErr.exn er.2.stderr))
  else
    (er.1, Except.ok (joinWith ", " ((splitLines er.2.stdout).filter (fun l => l ≠ ""))))

/-- Job.clean_export: run the remote clean-export command; same result
handling as clean. -/
def cleanExportOp (e : Eff) (w : World) : Eff × Except JobErr String :=
  let er := ssh e w (RemoteCmd.cleanExportCmd e.job.corpus_id)
  if er.2.stderr ≠ "" then (er.1, Except.error (JobErr.exn er.2.stderr))
  else
    (er.1, Except.ok (joinWith ", " ((splitLines er.2.stdout).filter (fun l => l ≠ ""))))

/-- The unconditional tail of Job.remove: delete the record from the
cache and from the file-system queue. -/
def removeCore (e : Eff) : Eff :=
  { e with store :=
      { cache := putKey e.store.cache e.job.corpus_id Option.none,
        fsQueue := putKey e.store.fsQueue e.job.corpus_id Option.none } }

/-- Job.remove: an annotating job blocks removal with JobError unless
abort is forced, in which case abort_sparv runs first
(ProcessNotRunning is swallowed, any other exception propagates and
nothing is deleted); every other status is deleted outright.  Note the
status check covers only annotating, not installing. -/
def removeJob (e : Eff) (w : World) (abort : Bool) : Eff × Except JobErr Unit :=
  if e.job.status = Status.annotating then
    if abort then
      let ar := abortSparv e w
      match ar.2 with
      | Except.ok _ => (removeCore ar.1, Except.ok ())
      | Except.error (JobErr.processNotRunning _) => (removeCore ar.1, Except.ok ())
      | Except.error ex => (ar.1, Except.error ex)
    else
      (e, Except.error (JobErr.jobError "Job cannot be removed due to a running Sparv process!"))
  else (removeCore e, Except.ok ())

/-- The Job.seconds_taken property: zero when never started or
waiting; while running the maximum of the retained estimate and the
clock delta; after a sparv_done timestamp is known the maximum of the
estimate and the reported delta, also setting done; zero in the
leftover branch.  The result is written back through
set_latest_seconds_taken. -/
def secondsTaken (e : Eff) (w : World) : Eff × ℚ :=
  match e.job.started with
  | Option.none => (setLatestSecondsTaken e 0, 0)
  | some t0 =>
    if e.job.status.is_waiting then (setLatestSecondsTaken e 0, 0)
    else if e.job.status.is_running then
      let s := max e.job.latest_seconds_taken (w.now - t0)
      (setLatestSecondsTaken e s, s)
    else
      match e.job.sparv_done with
      | some td =>
        let s := max e.job.latest_seconds_taken (td - t0)
        let e1 := { e with job := { e.job with done := some (t0 + s) } }
        (setLatestSecondsTaken e1 s, s)
      | Option.none => (setLatestSecondsTaken e 0, 0)

/-- The Job.progress property: with process output expected, report 99
percent instead of a parsed 100 percent until a done status is
reached, else the parsed value; a merely active status reports zero;
anything else reports nothing. -/
def progressView (j : Job) : Option String :=
  if j.status.has_process_output then
    if j.progress_output = "100%" ∧ ¬ j.status.is_done_processing then some "99%"
    else some j.progress_output
  else if j.status.is_active then some "0%"
  else Option.none

/-- Job.__init__ via get_job on a cache miss: a fresh record. -/
def freshJob (corpus_id : String) (user_id contact : Option String)
    (sparv_exports files available_files : Option (List String))
    (install_scrambled : Option Bool) : Job :=
  { corpus_id := corpus_id, user_id := user_id, contact := contact,
    status := Status.none, pid := Option.none, started := Option.none,
    done := Option.none, sparv_done := Option.none,
    sparv_exports := sparv_exports.getD [], files := files.getD [],
    available_files := available_files.getD [],
    install_scrambled := install_scrambled, installed_korp := false,
    latest_seconds_taken := 0, progress_output := "0%" }

/-- load_from_str: decode a dump (an unknown status name raises,
Option.none), apply the caller-supplied overrides, and rebuild the
record through Job.__init__, which resets sparv_done and
progress_output to their initial values. -/
def loadFromPersisted (d : PersistedJob) (user_id contact : Option String)
    (sparv_exports files available_files : Option (List String))
    (install_scrambled : Option Bool) : Option Job :=
  match Status.ofName d.statusName with
  | Option.none => Option.none
  | some st =>
    some { corpus_id := d.corpus_id,
           user_id := match user_id with
                      | some u => some u
                      | Option.none => d.user_id,
           contact := match contact with
                      | some c => some c
                      | Option.none => d.contact,
           status := st,
           pid := d.pid,
           started := d.started,
           done := d.done,
           sparv_done := Option.none,
           sparv_exports := match sparv_exports with
                            | some xs => xs
                            | Option.none => d.sparv_exports,
           files := match files with
                    | some xs => xs
                    | Option.none => d.files,
           available_files := match available_files with
                              | some xs => xs
                              | Option.none => d.available_files,
           install_scrambled := match install_scrambled with
                                | some b => some b
                                | Option.none => d.install_scrambled,
           installed_korp := d.installed_korp,
           latest_seconds_taken := d.latest_seconds_taken,
           progress_output := "0%" }

/-- get_job: rehydrate from the cache when present, otherwise create a
fresh record. -/
def getJob (store : Store) (corpus_id : String) (user_id contact : Option String)
    (sparv_exports files available_files : Option (List String))
    (install_scrambled : Option Bool) : Option Job :=
  match store.cache corpus_id with
  | some d =>
    loadFromPersisted d user_id contact sparv_exports files available_files install_scrambled
  | Option.none =>
    some (freshJob corpus_id user_id contact sparv_exports files available_files install_scrambled)

/-!
Auxiliary notions used by the statements: the persisted status of the
current job, store consistency, the pid invariant, and a guarded step
relation capturing the invocation discipline the spec imposes on the
operations (start and sync operations are only invoked on jobs with no
running remote process; poll, abort, output reading, time accounting,
cleaning and removal may run at any time).
-/

/-- The status name stored in the cache under the current corpus id. -/
def persistedStatusName (e : Eff) : Option String :=
  (e.store.cache e.job.corpus_id).map (fun d => d.statusName)

/-- The cache entry of the current job agrees with the in-memory
record. -/
def syncedStore (e : Eff) : Prop :=
  e.store.cache e.job.corpus_id = some e.job.dump

/-- The pid invariant: a truthy (non-null, nonzero) pid is recorded
only while the job is running. -/
def PidInv (e : Eff) : Prop :=
  ∀ p : Int, e.job.pid = some p → p ≠ 0 → e.job.status.is_running = true

/-- One guarded operation step: any operation of jobs.py, where the
operations starting or syncing work are only invoked on jobs that are
not currently running a remote process. -/
inductive Step : Eff → Eff → Prop where
  | syncToSparv (e : Eff) (w : World) (h : e.job.status.is_running = false) :
      Step e (Mink.syncToSparv e w).1
  | runSparv (e : Eff) (w : World) (h : e.job.status.is_running = false) :
      Step e (Mink.runSparv e w).1
  | installKorp (e : Eff) (w : World) (h : e.job.status.is_running = false) :
      Step e (Mink.installKorp e w).1
  | syncResults (e : Eff) (w : World) (h : e.job.status.is_running = false) :
      Step e (Mink.syncResults e w).1
  | processRunning (e : Eff) (w : World) : Step e (Mink.processRunning e w).1
  | abortSparv (e : Eff) (w : World) : Step e (Mink.abortSparv e w).1
  | getOutput (e : Eff) (w : World) : Step e (Mink.getOutput e w).1
  | secondsTaken (e : Eff) (w : World) : Step e (Mink.secondsTaken e w).1
  | cleanAll (e : Eff) (w : World) : Step e (Mink.cleanAllOp e w).1
  | cleanExport (e : Eff) (w : World) : Step e (Mink.cleanExportOp e w).1
  | removeJob (e : Eff) (w : World) (b : Bool) : Step e (Mink.removeJob e w b).1

/-- States reachable from a freshly created job record through guarded
operation steps. -/
inductive ReachableGuarded : Eff → Prop where
  | init (cid : String) (u c : Option String) (se f af : Option (List String))
      (io2 : Option Bool) (st : Store) (q : List String) :
      ReachableGuarded { job := freshJob cid u c se f af io2, store := st, queued := q, cmds := [] }
  | step {e e2 : Eff} : ReachableGuarded e → Step e e2 → ReachableGuarded e2

/-!
Concrete fixtures for witnesses and counterexamples.
-/

/-- A job fixture: given status, pid, retained time estimate, start
time and stored progress; other fields are the constructor defaults. -/
def mkJob (st : Status) (pid : Option Int) (latest : ℚ) (started : Option ℚ)
    (po : String) : Job :=
  { corpus_id := "c", user_id := Option.none, contact := Option.none, status := st,
    pid := pid, started := started, done := Option.none, sparv_done := Option.none,
    sparv_exports := [], files := [], available_files := [], install_scrambled := Option.none,
    installed_korp := false, latest_seconds_taken := latest, progress_output := po }

/-- An empty persistence store. -/
def emptyStore : Store :=
  { cache := fun _ => Option.none, fsQueue := fun _ => Option.none }

/-- A store holding exactly the dump of one job. -/
def storeWith (j : Job) : Store :=
  { cache := putKey emptyStore.cache j.corpus_id (some j.dump),
    fsQueue := putKey emptyStore.fsQueue j.corpus_id (some j.dump) }

/-- An effect state over a given job and store, with empty queue and
command trace. -/
def mkEff (j : Job) (st : Store) : Eff :=
  { job := j, store := st, queued := [], cmds := [] }

/-- A world with the given remote channel and successful transfer
outcomes. -/
def mkWorld (remote : RemoteCmd → SSHResult) : World :=
  { remote := remote, now := 0, storageLocal := false, downloadOk := true,
    rsyncConfig := ⟨0, "", ""⟩, rsyncSource := ⟨0, "", ""⟩, rsyncExports := ⟨0, "", ""⟩,
    rsyncWork := ⟨0, "", ""⟩, uploadExportsOk := true, uploadWorkOk := true }

/-- A remote channel answering every command with the given result. -/
def constRemote (r : SSHResult) : RemoteCmd → SSHResult := fun _ => r

/-!
Helper lemmas about the state-mutating primitives.
-/

theorem statusOfName_name (s : Status) : Status.ofName s.name = some s := by
  cases s <;> rfl

theorem running_not_waiting {s : Status} (h : s.is_running = true) : s.is_waiting = false := by
  cases s <;> simp_all [Status.is_running, Status.is_waiting]

theorem save_job (e : Eff) : (save e).job = e.job := rfl

theorem save_cache_self (e : Eff) :
    (save e).store.cache e.job.corpus_id = some e.job.dump := by
  simp [save, putKey]

theorem setStatus_job (e : Eff) (s : Status) :
    (setStatus e s).job = { e.job with status := s } := by
  unfold setStatus
  split
  next h => rw [← h]
  next => rfl

theorem setStatus_cmds (e : Eff) (s : Status) : (setStatus e s).cmds = e.cmds := by
  unfold setStatus
  split <;> rfl

theorem setStatus_queued (e : Eff) (s : Status) : (setStatus e s).queued = e.queued := by
  unfold setStatus
  split <;> rfl

theorem setStatus_cache (e : Eff) (s : Status) :
    (setStatus e s).store.cache (setStatus e s).job.corpus_id =
      some (setStatus e s).job.dump ∨
    (setStatus e s) = e := by
  unfold setStatus
  split
  next => exact Or.inr rfl
  next => exact Or.inl (save_cache_self _)

theorem setPid_job (e : Eff) (p : Option Int) :
    (setPid e p).job = { e.job with pid := p } := rfl

theorem setPid_cmds (e : Eff) (p : Option Int) : (setPid e p).cmds = e.cmds := rfl

theorem resetTime_job (e : Eff) :
    (resetTime e).job = { e.job with latest_seconds_taken := 0, started := Option.none,
                                     done := Option.none, sparv_done := Option.none } := rfl

theorem setLatestSecondsTaken_job (e : Eff) (q : ℚ) :
    (setLatestSecondsTaken e q).job = { e.job with latest_seconds_taken := q } := by
  unfold setLatestSecondsTaken
  split
  next h => rw [← h]
  next => rfl

theorem getOutput_job_frame (e : Eff) (w : World) :
    (getOutput e w).1.job.status = e.job.status ∧
    (getOutput e w).1.job.pid = e.job.pid ∧
    (getOutput e w).1.job.corpus_id = e.job.corpus_id := by
  unfold getOutput ssh
  split
  next => exact ⟨rfl, rfl, rfl⟩
  next =>
    dsimp only
    split
    next => exact ⟨rfl, rfl, rfl⟩
    next =>
      split <;> exact ⟨rfl, rfl, rfl⟩

theorem getOutput_store (e : Eff) (w : World) :
    (getOutput e w).1.store = e.store := by
  unfold getOutput ssh
  split
  next => rfl
  next =>
    dsimp only
    split
    next => rfl
    next => split <;> rfl

theorem probePid_pid_none (e : Eff) (w : World) (h : e.job.pid = Option.none) :
    probePid e w = (e, false) := by
  unfold probePid
  rw [h]

theorem probePid_pid_zero (e : Eff) (w : World) (h : e.job.pid = some 0) :
    probePid e w = (e, false) := by
  unfold probePid
  rw [h]
  simp

theorem probePid_alive (e : Eff) (w : World) (p : Int) (hp : e.job.pid = some p)
    (h0 : p ≠ 0) (ha : (w.remote (RemoteCmd.kill0 p)).returncode = 0) :
    probePid e w = ({ e with cmds := e.cmds ++ [RemoteCmd.kill0 p] }, true) := by
  unfold probePid ssh
  rw [hp]
  simp [h0, ha]

theorem probePid_dead (e : Eff) (w : World) (p : Int) (hp : e.job.pid = some p)
    (h0 : p ≠ 0) (ha : (w.remote (RemoteCmd.kill0 p)).returncode ≠ 0) :
    probePid e w =
      (setPid { e with cmds := e.cmds ++ [RemoteCmd.kill0 p] } Option.none, false) := by
  unfold probePid ssh
  rw [hp]
  simp [h0, ha]

theorem probePid_status (e : Eff) (w : World) :
    (probePid e w).1.job.status = e.job.status := by
  cases hp : e.job.pid with
  | none => rw [probePid_pid_none e w hp]
  | some p =>
    by_cases h0 : p = 0
    · subst h0
      rw [probePid_pid_zero e w hp]
    · by_cases hrc : (w.remote (RemoteCmd.kill0 p)).returncode = 0
      · rw [probePid_alive e w p hp h0 hrc]
      · rw [probePid_dead e w p hp h0 hrc]
        simp [setPid_job]

theorem processRunning_dead (e : Eff) (w : World) (t : String × String × String)
    (hf : (probePid e w).2 = false)
    (hok : (getOutput (probePid e w).1 w).2 = Except.ok t) :
    processRunning e w =
      (if (getOutput (probePid e w).1 w).1.job.progress_output = "100%" then
         if (getOutput (probePid e w).1 w).1.job.status = Status.annotating then
           if w.storageLocal then
             (setStatus (getOutput (probePid e w).1 w).1 Status.done_syncing, Except.ok false)
           else
             (setStatus (getOutput (probePid e w).1 w).1 Status.done_annotating, Except.ok false)
         else if (getOutput (probePid e w).1 w).1.job.status = Status.installing then
           (setStatus (getOutput (probePid e w).1 w).1 Status.done_installing, Except.ok false)
         else ((getOutput (probePid e w).1 w).1, Except.ok false)
       else (setStatus (getOutput (probePid e w).1 w).1 Status.error, Except.ok false)) := by
  unfold processRunning
  simp only [hf, Bool.false_eq_true, if_false, hok]

theorem setStatus_status (e : Eff) (s : Status) : (setStatus e s).job.status = s := by
  rw [setStatus_job]

theorem setStatus_error_persisted (x : Eff)
    (hx : x.job.status ≠ Status.error ∨ x.store.cache x.job.corpus_id = some x.job.dump) :
    (setStatus x Status.error).job.status = Status.error ∧
    persistedStatusName (setStatus x Status.error) = some "error" := by
  unfold setStatus
  by_cases h : x.job.status = Status.error
  · rw [if_pos h]
    refine ⟨h, ?_⟩
    rcases hx with hne | hsy
    · exact absurd h hne
    · unfold persistedStatusName
      rw [hsy]
      simp only [Option.map_some, Job.dump, h]
      rfl
  · rw [if_neg h]
    refine ⟨rfl, ?_⟩
    unfold persistedStatusName
    show ((save { x with job := { x.job with status := Status.error } }).store.cache
        ({ x with job := { x.job with status := Status.error } } : Eff).job.corpus_id).map
        (fun d => d.statusName) = some "error"
    rw [save_cache_self]
    simp only [Option.map_some, Job.dump]
    rfl

theorem secondsTaken_running (e : Eff) (w : World) (t0 : ℚ)
    (hrun : e.job.status.is_running = true) (hst : e.job.started = some t0) :
    secondsTaken e w =
      (setLatestSecondsTaken e (max e.job.latest_seconds_taken (w.now - t0)),
       max e.job.latest_seconds_taken (w.now - t0)) := by
  unfold secondsTaken
  rw [hst]
  simp [running_not_waiting hrun, hrun]

/-!
The claims.
-/

/-- C10: for every job whose status is outside the has-process-output
set, get_output returns empty warnings, errors and misc, issues no
remote command, and leaves the whole state (job record including the
stored progress, the store, the queue and the command trace)
unchanged. -/
theorem C10_get_output_frame (e : Eff) (w : World)
    (h : e.job.status.has_process_output = false) :
    getOutput e w = (e, Except.ok ("", "", "")) := by
  unfold getOutput
  simp [h]

/-- Witness for C10 at a waiting job, with remote output on offer that
is never fetched. -/
theorem C10_witness :
    (mkJob Status.waiting Option.none 0 Option.none "17%").status.has_process_output = false ∧
    getOutput (mkEff (mkJob Status.waiting Option.none 0 Option.none "17%") emptyStore)
        (mkWorld (constRemote ⟨0, "surprising output", ""⟩)) =
      (mkEff (mkJob Status.waiting Option.none 0 Option.none "17%") emptyStore,
       Except.ok ("", "", "")) :=
  ⟨rfl, C10_get_output_frame _ _ rfl⟩

/-- C8: for every parser input containing no PROGRESS-tagged line
whose collected misc text begins with the marker Nothing to be done.,
the parsed progress is the full 100 percent. -/
theorem C8_nothing_marker_full_progress (started sd0 : Option ℚ) (text : String)
    (po : ParsedOutput) (sd : Option ℚ)
    (hp : parseNohup started sd0 text = (some po, sd))
    (_hnp : hasProgressLine text = false)
    (hm : strStartsWith po.misc "Nothing to be done." = true) :
    po.progress = "100%" := by
  unfold parseNohup at hp
  dsimp only at hp
  split at hp
  next =>
    rw [Prod.mk.injEq] at hp
    obtain ⟨h1, _⟩ := hp
    injection h1 with h1
    subst h1
    dsimp only [finalizeParse] at hm ⊢
    simp only [hm, if_true]
  next =>
    rw [Prod.mk.injEq] at hp
    obtain ⟨h1, _⟩ := hp
    exact absurd h1 (by simp)

/-- The parse result of the no-op marker alone. -/
def c8Out : ParsedOutput :=
  { progress := "100%", warnings := "", errors := "", misc := "Nothing to be done.",
    sparv_done := Option.none }

/-- Witness for C8 on the one-line no-op input. -/
theorem C8_witness : c8Out.progress = "100%" :=
  C8_nothing_marker_full_progress Option.none Option.none "Nothing to be done." c8Out
    Option.none (by decide) (by decide) (by decide)

/-- C7: while a job is running with a recorded start time, the
elapsed-seconds computation returns the maximum of the retained
estimate and the clock delta, and never decreases across successive
calls on the same job, even when the second clock reading is lower
than the first. -/
theorem C7_elapsed_max_monotone (e : Eff) (w1 w2 : World) (t0 : ℚ)
    (hrun : e.job.status.is_running = true)
    (hst : e.job.started = some t0) :
    (secondsTaken e w1).2 = max e.job.latest_seconds_taken (w1.now - t0) ∧
    (secondsTaken e w1).2 ≤ (secondsTaken (secondsTaken e w1).1 w2).2 := by
  have h1 := secondsTaken_running e w1 t0 hrun hst
  have hj := setLatestSecondsTaken_job e (max e.job.latest_seconds_taken (w1.now - t0))
  refine ⟨by rw [h1], ?_⟩
  have hrun2 : (secondsTaken e w1).1.job.status.is_running = true := by
    rw [h1]
    dsimp only
    rw [hj]
    exact hrun
  have hst2 : (secondsTaken e w1).1.job.started = some t0 := by
    rw [h1]
    dsimp only
    rw [hj]
    exact hst
  have hlat : (secondsTaken e w1).1.job.latest_seconds_taken = (secondsTaken e w1).2 := by
    rw [h1]
    dsimp only
    rw [hj]
  have h2 := secondsTaken_running (secondsTaken e w1).1 w2 t0 hrun2 hst2
  rw [h2]
  dsimp only
  rw [hlat]
  exact le_max_left _ _

/-- A running job five seconds into its retained estimate. -/
def c7Eff : Eff := mkEff (mkJob Status.annotating (some 11) 5 (some 0) "0%") emptyStore

/-- A first clock reading of three seconds. -/
def c7w1 : World := { mkWorld (constRemote ⟨0, "", ""⟩) with now := 3 }

/-- A second, lower clock reading of one second. -/
def c7w2 : World := { mkWorld (constRemote ⟨0, "", ""⟩) with now := 1 }

/-- Witness for C7: even with the clock stepping backwards from three
to one, the retained estimate never decreases. -/
theorem C7_witness :
    (secondsTaken c7Eff c7w1).2 = max c7Eff.job.latest_seconds_taken (c7w1.now - 0) ∧
    (secondsTaken c7Eff c7w1).2 ≤ (secondsTaken (secondsTaken c7Eff c7w1).1 c7w2).2 :=
  C7_elapsed_max_monotone c7Eff c7w1 c7w2 0 (by decide) (by decide)

/-- A running job carrying a recorded pid of zero: falsy in Python, so
abort_sparv treats it as no pid at all. -/
def c2Eff : Eff := mkEff (mkJob Status.annotating (some 0) 0 Option.none "0%") emptyStore

/-- A remote channel that would acknowledge any termination signal. -/
def c2World : World := mkWorld (constRemote ⟨0, "", ""⟩)

/-- Counterexample to C2 as stated: a running job with remote_pid
recorded as zero does not get a termination signal (no remote command
is issued); abort fails with ProcessNotFound instead, because the
code tests the pid for Python truthiness, not for presence. -/
theorem C2_counterexample :
    c2Eff.job.status.is_running = true ∧
    c2Eff.job.pid = some 0 ∧
    (abortSparv c2Eff c2World).2 =
      Except.error (JobErr.processNotFound "Failed to abort job because no process ID was found!") ∧
    (abortSparv c2Eff c2World).1.cmds = [] := by
  refine ⟨rfl, rfl, ?_, ?_⟩ <;> decide

/-- C2 amended: as the claim states, except that a recorded pid of
zero is treated like an absent pid (ProcessNotFound, no signal sent):
a waiting or waiting_install job is dequeued and aborted with no
remote command; a job neither waiting nor running fails with
ProcessNotRunning unchanged; a running job with absent pid fails with
ProcessNotFound unchanged; a running job with a nonzero pid gets one
termination signal, where exit 0 or a no-such-process stderr counts as
success (pid cleared, status aborted) and any other failure raises
JobError leaving the record unchanged. -/
theorem C2_abort_amended :
    (∀ (e : Eff) (w : World), e.job.status.is_waiting = true →
       (abortSparv e w).2 = Except.ok () ∧
       (abortSparv e w).1.job.status = Status.aborted ∧
       (abortSparv e w).1.job.pid = e.job.pid ∧
       (abortSparv e w).1.cmds = e.cmds ∧
       (abortSparv e w).1.queued = e.queued.filter (fun c => c ≠ e.job.corpus_id)) ∧
    (∀ (e : Eff) (w : World),
       e.job.status.is_waiting = false → e.job.status.is_running = false →
       abortSparv e w =
         (e, Except.error
               (JobErr.processNotRunning "Failed to abort job because Sparv was not running!"))) ∧
    (∀ (e : Eff) (w : World),
       e.job.status.is_running = true → e.job.pid = Option.none →
       abortSparv e w =
         (e, Except.error
               (JobErr.processNotFound "Failed to abort job because no process ID was found!"))) ∧
    (∀ (e : Eff) (w : World) (p : Int),
       e.job.status.is_running = true → e.job.pid = some p → p ≠ 0 →
       (abortSparv e w).1.cmds = e.cmds ++ [RemoteCmd.killTerm p] ∧
       (((w.remote (RemoteCmd.killTerm p)).returncode = 0 ∨
         strEndsWith (w.remote (RemoteCmd.killTerm p)).stderr "Processen finns inte\n" = true ∨
         strEndsWith (w.remote (RemoteCmd.killTerm p)).stderr "No such process\n" = true) →
           (abortSparv e w).2 = Except.ok () ∧
           (abortSparv e w).1.job.pid = Option.none ∧
           (abortSparv e w).1.job.status = Status.aborted) ∧
       ((w.remote (RemoteCmd.killTerm p)).returncode ≠ 0 →
        strEndsWith (w.remote (RemoteCmd.killTerm p)).stderr "Processen finns inte\n" = false →
        strEndsWith (w.remote (RemoteCmd.killTerm p)).stderr "No such process\n" = false →
          (abortSparv e w).2 =
            Except.error (JobErr.jobError
              ("Failed to abort job! Error: " ++ (w.remote (RemoteCmd.killTerm p)).stderr)) ∧
          (abortSparv e w).1.job = e.job)) := by
  refine ⟨?_, ?_, ?_, ?_⟩
  · intro e w hw
    have h : abortSparv e w = (setStatus (queueRemove e) Status.aborted, Except.ok ()) := by
      unfold abortSparv
      simp [hw]
    rw [h]
    refine ⟨rfl, ?_, ?_, ?_, ?_⟩
    · rw [setStatus_job]
    · rw [setStatus_job]
      rfl
    · rw [setStatus_cmds]
      rfl
    · rw [setStatus_queued]
      rfl
  · intro e w hw hr
    unfold abortSparv
    simp [hw, hr]
  · intro e w hr hp
    unfold abortSparv
    simp [running_not_waiting hr, hr, hp]
  · intro e w p hr hp h0
    have hw := running_not_waiting hr
    have hred : abortSparv e w =
        (if (w.remote (RemoteCmd.killTerm p)).returncode = 0 then
           (setStatus (setPid { e with cmds := e.cmds ++ [RemoteCmd.killTerm p] } Option.none)
              Status.aborted, Except.ok ())
         else if strEndsWith (w.remote (RemoteCmd.killTerm p)).stderr "Processen finns inte\n" ∨
                 strEndsWith (w.remote (RemoteCmd.killTerm p)).stderr "No such process\n" then
           (setStatus (setPid { e with cmds := e.cmds ++ [RemoteCmd.killTerm p] } Option.none)
              Status.aborted, Except.ok ())
         else ({ e with cmds := e.cmds ++ [RemoteCmd.killTerm p] },
               Except.error (JobErr.jobError
                 ("Failed to abort job! Error: " ++ (w.remote (RemoteCmd.killTerm p)).stderr)))) := by
      unfold abortSparv ssh
      simp [hw, hr, hp, h0]
    rw [hred]
    refine ⟨?_, ?_, ?_⟩
    · split
      next => simp [setStatus_cmds, setPid_cmds]
      next =>
        split
        next => simp [setStatus_cmds, setPid_cmds]
        next => rfl
    · intro hsucc
      by_cases hrc : (w.remote (RemoteCmd.killTerm p)).returncode = 0
      · rw [if_pos hrc]
        exact ⟨rfl, by simp [setStatus_job, setPid_job], by simp [setStatus_job]⟩
      · have hend : (strEndsWith (w.remote (RemoteCmd.killTerm p)).stderr "Processen finns inte\n" = true ∨
            strEndsWith (w.remote (RemoteCmd.killTerm p)).stderr "No such process\n" = true) := by
          rcases hsucc with h | h | h
          · exact absurd h hrc
          · exact Or.inl h
          · exact Or.inr h
        rw [if_neg hrc, if_pos hend]
        exact ⟨rfl, by simp [setStatus_job, setPid_job], by simp [setStatus_job]⟩
    · intro hrc he1 he2
      rw [if_neg hrc, if_neg (by simp [he1, he2])]
      exact ⟨rfl, rfl⟩

/-- A running job with nonzero pid seven, for the C2 witness. -/
def c2wEff : Eff := mkEff (mkJob Status.annotating (some 7) 0 Option.none "0%") emptyStore

/-- Witness for C2 at the nonzero-pid branch: a termination signal is
issued and acknowledged, the pid is cleared and the job aborted. -/
theorem C2_witness :
    (abortSparv c2wEff c2World).1.cmds = c2wEff.cmds ++ [RemoteCmd.killTerm 7] ∧
    (abortSparv c2wEff c2World).2 = Except.ok () ∧
    (abortSparv c2wEff c2World).1.job.pid = Option.none ∧
    (abortSparv c2wEff c2World).1.job.status = Status.aborted := by
  have h := C2_abort_amended.2.2.2 c2wEff c2World 7 (by decide) (by decide) (by decide)
  have hs := h.2.1 (Or.inl (by decide))
  exact ⟨h.1, hs.1, hs.2.1, hs.2.2⟩

/-- An annotating job with recorded pid zero. -/
def c1Eff : Eff := mkEff (mkJob Status.annotating (some 0) 0 Option.none "0%") emptyStore

/-- A world whose liveness probe reports every pid alive and whose
nohup file holds a finished no-op run. -/
def c1World : World :=
  mkWorld (fun c => match c with
    | RemoteCmd.catNohup _ => ⟨0, "Nothing to be done.", ""⟩
    | _ => ⟨0, "", ""⟩)

/-- Counterexample to C1 as stated: a job whose remote_pid is recorded
as zero, in a world whose liveness probe reports the process alive, is
not returned unchanged: the pid is never probed (Python truthiness
treats zero as absent), the output is fetched and parsed, the job
transitions to done_annotating, and the recorded pid is not cleared. -/
theorem C1_counterexample :
    c1Eff.job.pid = some 0 ∧
    (c1World.remote (RemoteCmd.kill0 0)).returncode = 0 ∧
    (processRunning c1Eff c1World).2 = Except.ok false ∧
    (processRunning c1Eff c1World).1.job.status = Status.done_annotating ∧
    (processRunning c1Eff c1World).1.job.pid = some 0 := by
  refine ⟨rfl, rfl, ?_, ?_, ?_⟩ <;> decide

/-- C1 amended: as the claim states, with a recorded pid of zero
treated like no recorded pid (neither probed nor cleared, Python
truthiness) and the outcome read from the progress value the fetch
leaves on the job: for a job with a nonzero pid whose liveness probe
reports the process alive, poll returns true with the job record
(status and remote_pid included) unchanged; when the pid is absent or
the probe finds the process dead, the pid ends cleared, poll returns
false, and, provided the fetch parses without an exception, a stored
progress of exactly 100 percent sends annotating to done_syncing when
the results location is local and to done_annotating otherwise, and
installing to done_installing, while any other progress value sets the
status to error. -/
theorem C1_poll_amended :
    (∀ (e : Eff) (w : World) (p : Int), e.job.pid = some p → p ≠ 0 →
       (w.remote (RemoteCmd.kill0 p)).returncode = 0 →
       (processRunning e w).1.job = e.job ∧ (processRunning e w).2 = Except.ok true) ∧
    (∀ (e : Eff) (w : World) (t : String × String × String),
       (e.job.pid = Option.none ∨
        ∃ p : Int, e.job.pid = some p ∧ p ≠ 0 ∧ (w.remote (RemoteCmd.kill0 p)).returncode ≠ 0) →
       (getOutput (probePid e w).1 w).2 = Except.ok t →
       (processRunning e w).1.job.pid = Option.none ∧
       (processRunning e w).2 = Except.ok false ∧
       ((getOutput (probePid e w).1 w).1.job.progress_output = "100%" →
          (e.job.status = Status.annotating → w.storageLocal = true →
             (processRunning e w).1.job.status = Status.done_syncing) ∧
          (e.job.status = Status.annotating → w.storageLocal = false →
             (processRunning e w).1.job.status = Status.done_annotating) ∧
          (e.job.status = Status.installing →
             (processRunning e w).1.job.status = Status.done_installing)) ∧
       ((getOutput (probePid e w).1 w).1.job.progress_output ≠ "100%" →
          (processRunning e w).1.job.status = Status.error)) := by
  constructor
  · intro e w p hp h0 ha
    have hpb := probePid_alive e w p hp h0 ha
    unfold processRunning
    rw [hpb]
    exact ⟨rfl, rfl⟩
  · intro e w t hdead hok
    have hpid : (probePid e w).1.job.pid = Option.none ∧ (probePid e w).2 = false := by
      rcases hdead with h | ⟨p, hp, h0, hd⟩
      · rw [probePid_pid_none e w h]
        exact ⟨h, rfl⟩
      · rw [probePid_dead e w p hp h0 hd]
        refine ⟨?_, rfl⟩
        rw [setPid_job]
    obtain ⟨hgs, hgp, _⟩ := getOutput_job_frame (probePid e w).1 w
    have hst2 : (getOutput (probePid e w).1 w).1.job.status = e.job.status :=
      hgs.trans (probePid_status e w)
    have hp2 : (getOutput (probePid e w).1 w).1.job.pid = Option.none :=
      hgp.trans hpid.1
    have hmain := processRunning_dead e w t hpid.2 hok
    refine ⟨?_, ?_, ?_, ?_⟩
    · rw [hmain]
      split
      · split
        · split <;> simp [setStatus_job, hp2]
        · split
          · simp [setStatus_job, hp2]
          · exact hp2
      · simp [setStatus_job, hp2]
    · rw [hmain]
      split
      · split
        · split <;> rfl
        · split <;> rfl
      · rfl
    · intro h100
      refine ⟨?_, ?_, ?_⟩
      · intro hann hloc
        rw [hmain, if_pos h100, if_pos (hst2.trans hann), if_pos hloc]
        simp [setStatus_job]
      · intro hann hloc
        rw [hmain, if_pos h100, if_pos (hst2.trans hann), if_neg ?hnl]
        case hnl => rw [hloc]; exact Bool.false_ne_true
        simp [setStatus_job]
      · intro hins
        rw [hmain, if_pos h100, if_neg ?hna, if_pos (hst2.trans hins)]
        case hna => rw [hst2, hins]; exact fun hc => Status.noConfusion hc
        simp [setStatus_job]
    · intro hne
      rw [hmain, if_neg hne]
      simp [setStatus_job]

/-- An annotating job with nonzero pid five, for the C1 witness. -/
def c1wEff : Eff := mkEff (mkJob Status.annotating (some 5) 0 Option.none "0%") emptyStore

/-- Witness for C1 at the alive branch: the probe reports exit 0 and
poll returns true with the job unchanged. -/
theorem C1_witness :
    (processRunning c1wEff c1World).1.job = c1wEff.job ∧
    (processRunning c1wEff c1World).2 = Except.ok true :=
  C1_poll_amended.1 c1wEff c1World 5 rfl (by decide) (by decide)

/-- A waiting job with retained duration estimate seven. -/
def c6Eff : Eff := mkEff (mkJob Status.waiting Option.none 7 Option.none "0%") emptyStore

/-- A world that starts the run with exit 0 and echoes pid 4242. -/
def c6World : World := mkWorld (constRemote ⟨0, "4242", ""⟩)

/-- Counterexample to C6 as stated: a successful start leaves the
measured duration estimate at its previous value seven instead of
resetting it to zero; in run_sparv the reset happens on the failure
path only. -/
theorem C6_counterexample :
    c6Eff.job.latest_seconds_taken = 7 ∧
    (runSparv c6Eff c6World).2 = Except.ok () ∧
    (runSparv c6Eff c6World).1.job.status = Status.annotating ∧
    (runSparv c6Eff c6World).1.job.pid = some 4242 ∧
    (runSparv c6Eff c6World).1.job.latest_seconds_taken = 7 := by
  refine ⟨?_, ?_, ?_, ?_, ?_⟩ <;> decide

/-- C6 amended: run_sparv records started_at as the current time in
every case; on a zero exit with a parseable echoed pid the job becomes
annotating with that pid and the measured duration estimate is left
untouched; on a non-zero exit the timing fields are reset (estimate
zero, started cleared) and the status set to error before JobError is
raised; on a zero exit with an unparseable pid echo the constructor
exception propagates with status and store unchanged. -/
theorem C6_run_sparv_amended :
    (∀ (e : Eff) (w : World) (pid : Int),
       (w.remote (RemoteCmd.runScript e.job.corpus_id)).returncode = 0 →
       parsePyInt (w.remote (RemoteCmd.runScript e.job.corpus_id)).stdout = some pid →
       (runSparv e w).2 = Except.ok () ∧
       (runSparv e w).1.job.status = Status.annotating ∧
       (runSparv e w).1.job.pid = some pid ∧
       (runSparv e w).1.job.started = some w.now ∧
       (runSparv e w).1.job.latest_seconds_taken = e.job.latest_seconds_taken) ∧
    (∀ (e : Eff) (w : World),
       (w.remote (RemoteCmd.runScript e.job.corpus_id)).returncode ≠ 0 →
       (runSparv e w).2 = Except.error (JobErr.jobError
         ("Failed to run Sparv! " ++ (w.remote (RemoteCmd.runScript e.job.corpus_id)).stderr)) ∧
       (runSparv e w).1.job.status = Status.error ∧
       (runSparv e w).1.job.latest_seconds_taken = 0 ∧
       (runSparv e w).1.job.started = Option.none ∧
       (runSparv e w).1.job.pid = e.job.pid) ∧
    (∀ (e : Eff) (w : World),
       (w.remote (RemoteCmd.runScript e.job.corpus_id)).returncode = 0 →
       parsePyInt (w.remote (RemoteCmd.runScript e.job.corpus_id)).stdout = Option.none →
       (runSparv e w).2 = Except.error (JobErr.pyError "invalid pid echo") ∧
       (runSparv e w).1.job.status = e.job.status ∧
       (runSparv e w).1.job.started = some w.now ∧
       (runSparv e w).1.store = e.store) := by
  refine ⟨?_, ?_, ?_⟩
  · intro e w pid hrc hpid
    unfold runSparv ssh
    simp only [hrc, hpid, ne_eq, not_true_eq_false, if_false, ite_false]
    refine ⟨by trivial, ?_, ?_, ?_, ?_⟩ <;> simp [setStatus_job, setPid_job]
  · intro e w hrc
    unfold runSparv ssh
    simp only [ne_eq, hrc, not_false_eq_true, if_true, ite_true]
    refine ⟨by trivial, ?_, ?_, ?_, ?_⟩ <;> simp [setStatus_job, resetTime_job]
  · intro e w hrc hpid
    unfold runSparv ssh
    simp only [hrc, hpid, ne_eq, not_true_eq_false, if_false, ite_false]
    exact ⟨by trivial, by trivial, by trivial, by trivial⟩

/-- Witness for C6 at the successful-start branch. -/
theorem C6_witness :
    (runSparv c6Eff c6World).2 = Except.ok () ∧
    (runSparv c6Eff c6World).1.job.status = Status.annotating ∧
    (runSparv c6Eff c6World).1.job.pid = some 4242 ∧
    (runSparv c6Eff c6World).1.job.started = some c6World.now ∧
    (runSparv c6Eff c6World).1.job.latest_seconds_taken = c6Eff.job.latest_seconds_taken :=
  C6_run_sparv_amended.1 c6Eff c6World 4242 (by decide) (by decide)

/-- An installing job whose dump sits in the store. -/
def c9Job : Job := mkJob Status.installing (some 99) 0 Option.none "0%"

/-- The effect state of the installing job over its own store entry. -/
def c9Eff : Eff := mkEff c9Job (storeWith c9Job)

/-- A silent remote channel. -/
def c9World : World := mkWorld (constRemote ⟨0, "", ""⟩)

/-- Counterexample to C9 as stated: a job in installing, an active
remote-running state, is removed without force and without JobError;
both persisted copies are deleted.  The guard in Job.remove checks
only for annotating. -/
theorem C9_counterexample :
    c9Eff.job.status = Status.installing ∧
    c9Eff.store.cache "c" = some c9Job.dump ∧
    (removeJob c9Eff c9World false).2 = Except.ok () ∧
    (removeJob c9Eff c9World false).1.store.cache "c" = Option.none ∧
    (removeJob c9Eff c9World false).1.store.fsQueue "c" = Option.none := by
  refine ⟨rfl, ?_, ?_, ?_, ?_⟩ <;> decide

/-- C9 amended: only the annotating status blocks removal.  A job in
annotating is refused with JobError and nothing is deleted unless
removal is forced; every other status, installing included, is deleted
from both the cache and the file-system backup without error.  Forced
removal of an annotating job first aborts: with a nonzero pid and an
acknowledged signal the record is then deleted; with a null pid the
abort raises ProcessNotFound and nothing is deleted. -/
theorem C9_remove_amended :
    (∀ (e : Eff) (w : World), e.job.status = Status.annotating →
       removeJob e w false =
         (e, Except.error (JobErr.jobError "Job cannot be removed due to a running Sparv process!"))) ∧
    (∀ (e : Eff) (w : World) (b : Bool), e.job.status ≠ Status.annotating →
       (removeJob e w b).2 = Except.ok () ∧
       (removeJob e w b).1.store.cache e.job.corpus_id = Option.none ∧
       (removeJob e w b).1.store.fsQueue e.job.corpus_id = Option.none) ∧
    (∀ (e : Eff) (w : World) (p : Int), e.job.status = Status.annotating →
       e.job.pid = some p → p ≠ 0 → (w.remote (RemoteCmd.killTerm p)).returncode = 0 →
       (removeJob e w true).2 = Except.ok () ∧
       (removeJob e w true).1.store.cache e.job.corpus_id = Option.none ∧
       (removeJob e w true).1.store.fsQueue e.job.corpus_id = Option.none) ∧
    (∀ (e : Eff) (w : World), e.job.status = Status.annotating → e.job.pid = Option.none →
       (removeJob e w true).2 =
         Except.error (JobErr.processNotFound "Failed to abort job because no process ID was found!") ∧
       (removeJob e w true).1.store = e.store) := by
  refine ⟨?_, ?_, ?_, ?_⟩
  · intro e w hann
    unfold removeJob
    simp [hann]
  · intro e w b hann
    unfold removeJob
    rw [if_neg hann]
    refine ⟨rfl, ?_, ?_⟩ <;> simp [removeCore, putKey]
  · intro e w p hann hp h0 hrc
    have hr : e.job.status.is_running = true := by rw [hann]; rfl
    have hw := running_not_waiting hr
    have habort : abortSparv e w =
        (setStatus (setPid { e with cmds := e.cmds ++ [RemoteCmd.killTerm p] } Option.none)
           Status.aborted, Except.ok ()) := by
      unfold abortSparv ssh
      simp [hw, hr, hp, h0, hrc]
    unfold removeJob
    rw [if_pos hann, if_pos rfl, habort]
    refine ⟨rfl, ?_, ?_⟩ <;>
      simp [removeCore, putKey, setStatus_job, setPid_job]
  · intro e w hann hp
    have hr : e.job.status.is_running = true := by rw [hann]; rfl
    have hw := running_not_waiting hr
    have habort : abortSparv e w =
        (e, Except.error
              (JobErr.processNotFound "Failed to abort job because no process ID was found!")) := by
      unfold abortSparv
      simp [hw, hr, hp]
    unfold removeJob
    rw [if_pos hann, if_pos rfl, habort]
    exact ⟨rfl, rfl⟩

/-- A done-syncing job persisted in the store, for the C9 witness. -/
def c9wJob : Job := mkJob Status.done_syncing Option.none 0 Option.none "100%"

/-- The effect state of the done-syncing job. -/
def c9wEff : Eff := mkEff c9wJob (storeWith c9wJob)

/-- Witness for C9 on a non-annotating job: removal succeeds and both
persisted copies are gone. -/
theorem C9_witness :
    (removeJob c9wEff c9World false).2 = Except.ok () ∧
    (removeJob c9wEff c9World false).1.store.cache c9wEff.job.corpus_id = Option.none ∧
    (removeJob c9wEff c9World false).1.store.fsQueue c9wEff.job.corpus_id = Option.none :=
  C9_remove_amended.2.1 c9wEff c9World false (by decide)

/-- A job carrying transient state: parsed progress and a reported
completion timestamp. -/
def c5Job : Job :=
  { mkJob Status.done_annotating Option.none 12 (some 3) "57%" with sparv_done := some 5 }

/-- The round-tripped record: all persisted fields equal, transient
fields back at their constructor defaults. -/
def c5Round : Job := { c5Job with sparv_done := Option.none, progress_output := "0%" }

/-- Counterexample to C5 as stated: saving and re-getting a record
with no caller-supplied overrides does not reconstruct an equivalent
record; the latest parsed progress (57 percent) and the reported
completion timestamp are dropped, because Job.__str__ does not
serialize them. -/
theorem C5_counterexample :
    getJob (save (mkEff c5Job emptyStore)).store "c"
        Option.none Option.none Option.none Option.none Option.none Option.none = some c5Round ∧
    c5Round.progress_output = "0%" ∧
    c5Job.progress_output = "57%" ∧
    c5Round ≠ c5Job := by
  refine ⟨?_, ?_, ?_, ?_⟩ <;> decide

/-- C5 amended: save followed by get reconstructs the record with
every persisted field equal and every caller-supplied parameter
overriding its field, while the transient fields sparv_done and the
stored progress are reset to their constructor defaults (they are not
serialized).  The persisted representation stores the status by its
symbolic member name, and name lookup inverts naming for every status,
so the round trip never depends on the numeric enum value. -/
theorem C5_roundtrip_amended :
    (∀ (j : Job) (st : Store) (uo co : Option String) (so fo ao : Option (List String))
       (io2 : Option Bool),
       getJob (save (mkEff j st)).store j.corpus_id uo co so fo ao io2 =
         some { j with
                user_id := match uo with | some u => some u | Option.none => j.user_id,
                contact := match co with | some c => some c | Option.none => j.contact,
                sparv_exports := match so with | some xs => xs | Option.none => j.sparv_exports,
                files := match fo with | some xs => xs | Option.none => j.files,
                available_files := match ao with | some xs => xs | Option.none => j.available_files,
                install_scrambled :=
                  match io2 with | some b => some b | Option.none => j.install_scrambled,
                sparv_done := Option.none,
                progress_output := "0%" }) ∧
    (∀ j : Job, j.dump.statusName = j.status.name) ∧
    (∀ s : Status, Status.ofName s.name = some s) := by
  refine ⟨?_, fun _ => rfl, statusOfName_name⟩
  intro j st uo co so fo ao io2
  have hc : (save (mkEff j st)).store.cache j.corpus_id = some j.dump := save_cache_self _
  unfold getJob
  rw [hc]
  simp only [loadFromPersisted, Job.dump, statusOfName_name]

/-- Witness material for C5 is not needed: the theorem carries no
propositional hypothesis. -/
theorem C5_roundtrip_concrete :
    getJob (save (mkEff c5Job emptyStore)).store c5Job.corpus_id
        (some "alice") Option.none Option.none Option.none Option.none (some true) =
      some { c5Job with user_id := some "alice", install_scrambled := some true,
                        sparv_done := Option.none, progress_output := "0%" } := by
  have h := C5_roundtrip_amended.1 c5Job emptyStore
    (some "alice") Option.none Option.none Option.none Option.none (some true)
  exact h

/-- A done-syncing job whose dump is in the store. -/
def c3Job : Job := mkJob Status.done_syncing Option.none 0 Option.none "100%"

/-- The effect state of the done-syncing job over its store entry. -/
def c3Eff : Eff := mkEff c3Job (storeWith c3Job)

/-- A remote channel failing every command with stderr boom. -/
def c3World : World := mkWorld (constRemote ⟨0, "", "boom"⟩)

/-- Counterexample to C3 as stated: clean is one of the quantified
operations, yet a remote failure (non-empty stderr) raises a plain
exception while the in-memory and persisted status both stay
done_syncing, never becoming error. -/
theorem C3_counterexample :
    (cleanAllOp c3Eff c3World).2 = Except.error (JobErr.exn "boom") ∧
    (cleanAllOp c3Eff c3World).1.job.status = Status.done_syncing ∧
    persistedStatusName (cleanAllOp c3Eff c3World).1 = some "done_syncing" := by
  refine ⟨?_, ?_, ?_⟩ <;> decide

/-- C3 amended: the error-before-surfacing guarantee holds for
syncToRemote (every raised failure), for startAnnotation and
startInstall (their detected remote failures, the JobError on non-zero
exit; the pid-parse crash raises without it), and for syncResults
(both the returned error response and every raised failure, given a
store in sync with the record); it does not hold for clean,
cleanExports, abort or the poll parse failure, whose errors surface
with the status untouched. -/
theorem C3_error_persisted_amended :
    (∀ (e : Eff) (w : World) (m : JobErr), (syncToSparv e w).2 = Except.error m →
       (syncToSparv e w).1.job.status = Status.error ∧
       persistedStatusName (syncToSparv e w).1 = some "error") ∧
    (∀ (e : Eff) (w : World) (m : String),
       (runSparv e w).2 = Except.error (JobErr.jobError m) →
       (runSparv e w).1.job.status = Status.error ∧
       persistedStatusName (runSparv e w).1 = some "error") ∧
    (∀ (e : Eff) (w : World) (m : String),
       (installKorp e w).2 = Except.error (JobErr.jobError m) →
       (installKorp e w).1.job.status = Status.error ∧
       persistedStatusName (installKorp e w).1 = some "error") ∧
    (∀ (e : Eff) (w : World), syncedStore e →
       ((syncResults e w).2 = Except.ok false ∨ (∃ m, (syncResults e w).2 = Except.error m)) →
       (syncResults e w).1.job.status = Status.error ∧
       persistedStatusName (syncResults e w).1 = some "error") := by
  refine ⟨?_, ?_, ?_, ?_⟩
  · intro e w m h
    have hs0 : (setStatus e Status.syncing_corpus).job.status = Status.syncing_corpus :=
      setStatus_status e Status.syncing_corpus
    unfold syncToSparv ssh at h ⊢
    dsimp only at h ⊢
    split at h
    next hc =>
      rw [if_pos hc]
      exact setStatus_error_persisted _ (Or.inl (by rw [hs0]; exact fun hh => Status.noConfusion hh))
    next hc =>
      rw [if_neg hc]
      split at h
      next hd =>
        rw [if_pos hd]
        exact setStatus_error_persisted _ (Or.inl (by rw [hs0]; exact fun hh => Status.noConfusion hh))
      next hd =>
        rw [if_neg hd]
        split at h
        next he =>
          rw [if_pos he]
          exact setStatus_error_persisted _
            (Or.inl (by rw [hs0]; exact fun hh => Status.noConfusion hh))
        next he =>
          rw [if_neg he]
          split at h
          next hf =>
            rw [if_pos hf]
            exact setStatus_error_persisted _
              (Or.inl (by rw [hs0]; exact fun hh => Status.noConfusion hh))
          next hf =>
            exact absurd h (by simp)
  · intro e w m h
    unfold runSparv ssh at h ⊢
    dsimp only at h ⊢
    split at h
    next hc =>
      rw [if_pos hc]
      refine setStatus_error_persisted _ (Or.inr ?_)
      show (save _).store.cache _ = _
      exact save_cache_self _
    next hc =>
      rw [if_neg hc]
      split at h
      next => exact absurd h (by simp)
      next => exact absurd h (by simp)
  · intro e w m h
    unfold installKorp ssh at h ⊢
    dsimp only at h ⊢
    split at h
    next hc =>
      rw [if_pos hc]
      refine setStatus_error_persisted _ (Or.inr ?_)
      show (save _).store.cache _ = _
      exact save_cache_self _
    next hc =>
      rw [if_neg hc]
      split at h
      next => exact absurd h (by simp)
      next => exact absurd h (by simp)
  · intro e w hsy h
    have hor : e.job.status ≠ Status.error ∨ e.store.cache e.job.corpus_id = some e.job.dump :=
      Or.inr hsy
    unfold syncResults at h ⊢
    split at h
    next hc =>
      rw [if_pos hc]
      exact setStatus_error_persisted e hor
    next hc =>
      rw [if_neg hc]
      split at h
      next hd =>
        rw [if_pos hd]
        exact setStatus_error_persisted e hor
      next hd =>
        rw [if_neg hd]
        split at h
        next he =>
          rw [if_pos he]
          exact setStatus_error_persisted e hor
        next he =>
          rw [if_neg he]
          rcases h with h | ⟨m, h⟩
          · exact absurd h (by simp)
          · exact absurd h (by simp)

/-- A fresh job over an empty store. -/
def c3wEff : Eff := mkEff (mkJob Status.none Option.none 0 Option.none "0%") emptyStore

/-- Witness for C3 at the first hop of syncToRemote: the remote mkdir
fails and the persisted status becomes error before the exception
surfaces. -/
theorem C3_witness :
    (syncToSparv c3wEff c3World).1.job.status = Status.error ∧
    persistedStatusName (syncToSparv c3wEff c3World).1 = some "error" :=
  C3_error_persisted_amended.1 c3wEff c3World
    (JobErr.exn ("Failed to create corpus dir on Sparv server! " ++ "boom")) (by decide)

end Mink

namespace Mink

/-!
Preservation of the pid invariant by every guarded step, for C4.
-/

theorem waiting_not_running {s : Status} (h : s.is_waiting = true) : s.is_running = false := by
  cases s <;> simp_all [Status.is_running, Status.is_waiting]

theorem setStatus_pid (e : Eff) (s : Status) : (setStatus e s).job.pid = e.job.pid := by
  rw [setStatus_job]

theorem pidInv_untruthy {x : Eff}
    (h : x.job.pid = Option.none ∨ x.job.pid = some 0) : PidInv x := by
  intro p hp h0
  rcases h with h | h <;> rw [h] at hp
  · cases hp
  · injection hp with hp
    exact absurd hp.symm h0

theorem pidInv_of_pid_eq {e x : Eff} (hpid : x.job.pid = e.job.pid)
    (hinv : PidInv e) (hg : e.job.status.is_running = false) : PidInv x := by
  intro p hp h0
  rw [hpid] at hp
  have hr := hinv p hp h0
  rw [hg] at hr
  exact absurd hr (by simp)

theorem probePid_false_untruthy (e : Eff) (w : World) (h : (probePid e w).2 = false) :
    (probePid e w).1.job.pid = Option.none ∨ (probePid e w).1.job.pid = some 0 := by
  cases hp : e.job.pid with
  | none =>
    rw [probePid_pid_none e w hp]
    exact Or.inl hp
  | some p =>
    by_cases h0 : p = 0
    · subst h0
      rw [probePid_pid_zero e w hp]
      exact Or.inr hp
    · by_cases hrc : (w.remote (RemoteCmd.kill0 p)).returncode = 0
      · rw [probePid_alive e w p hp h0 hrc] at h
        cases h
      · rw [probePid_dead e w p hp h0 hrc]
        left
        rw [setPid_job]

theorem probePid_true_job (e : Eff) (w : World) (h : (probePid e w).2 = true) :
    (probePid e w).1.job = e.job := by
  cases hp : e.job.pid with
  | none =>
    rw [probePid_pid_none e w hp] at h
    cases h
  | some p =>
    by_cases h0 : p = 0
    · subst h0
      rw [probePid_pid_zero e w hp] at h
      cases h
    · by_cases hrc : (w.remote (RemoteCmd.kill0 p)).returncode = 0
      · rw [probePid_alive e w p hp h0 hrc]
      · rw [probePid_dead e w p hp h0 hrc] at h
        cases h

theorem syncToSparv_pid (e : Eff) (w : World) : (syncToSparv e w).1.job.pid = e.job.pid := by
  unfold syncToSparv ssh
  dsimp only
  split
  next => rw [setStatus_pid, setStatus_pid]
  next =>
    split
    next => rw [setStatus_pid, setStatus_pid]
    next =>
      split
      next => rw [setStatus_pid, setStatus_pid]
      next =>
        split
        next => rw [setStatus_pid, setStatus_pid]
        next => rw [setStatus_pid, setStatus_pid]

theorem syncResults_pid (e : Eff) (w : World) : (syncResults e w).1.job.pid = e.job.pid := by
  unfold syncResults
  split
  next => rw [setStatus_pid]
  next =>
    split
    next => rw [setStatus_pid]
    next =>
      split
      next => rw [setStatus_pid]
      next => rw [setStatus_pid]

theorem secondsTaken_pid_status (e : Eff) (w : World) :
    (secondsTaken e w).1.job.pid = e.job.pid ∧
    (secondsTaken e w).1.job.status = e.job.status := by
  unfold secondsTaken
  split
  next => rw [setLatestSecondsTaken_job]; exact ⟨rfl, rfl⟩
  next =>
    split
    next => rw [setLatestSecondsTaken_job]; exact ⟨rfl, rfl⟩
    next =>
      split
      next => rw [setLatestSecondsTaken_job]; exact ⟨rfl, rfl⟩
      next =>
        split
        next => rw [setLatestSecondsTaken_job]; exact ⟨rfl, rfl⟩
        next => rw [setLatestSecondsTaken_job]; exact ⟨rfl, rfl⟩

theorem cleanAllOp_job (e : Eff) (w : World) : (cleanAllOp e w).1.job = e.job := by
  unfold cleanAllOp ssh
  dsimp only
  split
  next => rfl
  next => rfl

theorem cleanExportOp_job (e : Eff) (w : World) : (cleanExportOp e w).1.job = e.job := by
  unfold cleanExportOp ssh
  dsimp only
  split
  next => rfl
  next => rfl

theorem pinv_syncToSparv (e : Eff) (w : World) (hinv : PidInv e)
    (hg : e.job.status.is_running = false) : PidInv (syncToSparv e w).1 :=
  pidInv_of_pid_eq (syncToSparv_pid e w) hinv hg

theorem pinv_syncResults (e : Eff) (w : World) (hinv : PidInv e)
    (hg : e.job.status.is_running = false) : PidInv (syncResults e w).1 :=
  pidInv_of_pid_eq (syncResults_pid e w) hinv hg

theorem pinv_runSparv (e : Eff) (w : World) (hinv : PidInv e)
    (hg : e.job.status.is_running = false) : PidInv (runSparv e w).1 := by
  unfold runSparv ssh
  dsimp only
  split
  next =>
    refine pidInv_of_pid_eq ?_ hinv hg
    rw [setStatus_pid, resetTime_job]
  next =>
    split
    next =>
      intro p hp h0
      rw [setStatus_job]
      rfl
    next =>
      refine pidInv_of_pid_eq ?_ hinv hg
      rfl

theorem pinv_installKorp (e : Eff) (w : World) (hinv : PidInv e)
    (hg : e.job.status.is_running = false) : PidInv (installKorp e w).1 := by
  unfold installKorp ssh
  dsimp only
  split
  next =>
    refine pidInv_of_pid_eq ?_ hinv hg
    rw [setStatus_pid, resetTime_job]
  next =>
    split
    next =>
      intro p hp h0
      rw [setStatus_job]
      rfl
    next =>
      refine pidInv_of_pid_eq ?_ hinv hg
      rfl

theorem pinv_getOutput (e : Eff) (w : World) (hinv : PidInv e) : PidInv (getOutput e w).1 := by
  intro p hp h0
  obtain ⟨hs, hpd, _⟩ := getOutput_job_frame e w
  rw [hs]
  rw [hpd] at hp
  exact hinv p hp h0

theorem pinv_secondsTaken (e : Eff) (w : World) (hinv : PidInv e) :
    PidInv (secondsTaken e w).1 := by
  intro p hp h0
  obtain ⟨hpd, hs⟩ := secondsTaken_pid_status e w
  rw [hs]
  rw [hpd] at hp
  exact hinv p hp h0

theorem pinv_abortSparv (e : Eff) (w : World) (hinv : PidInv e) : PidInv (abortSparv e w).1 := by
  by_cases hw : e.job.status.is_waiting = true
  · have h : (abortSparv e w).1 = setStatus (queueRemove e) Status.aborted := by
      unfold abortSparv
      simp [hw]
    rw [h]
    refine pidInv_of_pid_eq ?_ hinv (waiting_not_running hw)
    rw [setStatus_pid]
    rfl
  · have hw2 : e.job.status.is_waiting = false := by
      cases hb : e.job.status.is_waiting
      · rfl
      · exact absurd hb hw
    by_cases hr : e.job.status.is_running = true
    · cases hp : e.job.pid with
      | none =>
        have h : (abortSparv e w).1 = e := by
          unfold abortSparv
          simp [hw2, hr, hp]
        rw [h]
        exact hinv
      | some p =>
        by_cases h0 : p = 0
        · subst h0
          have h : (abortSparv e w).1 = e := by
            unfold abortSparv
            simp [hw2, hr, hp]
          rw [h]
          exact hinv
        · by_cases hok : (w.remote (RemoteCmd.killTerm p)).returncode = 0 ∨
              strEndsWith (w.remote (RemoteCmd.killTerm p)).stderr "Processen finns inte\n" = true ∨
              strEndsWith (w.remote (RemoteCmd.killTerm p)).stderr "No such process\n" = true
          · have h : (abortSparv e w).1 =
                setStatus (setPid { e with cmds := e.cmds ++ [RemoteCmd.killTerm p] } Option.none)
                  Status.aborted := by
              unfold abortSparv ssh
              rcases hok with hok | hok | hok
              · simp [hw2, hr, hp, h0, hok]
              · simp [hw2, hr, hp, h0, hok]
              · simp [hw2, hr, hp, h0, hok]
            rw [h]
            apply pidInv_untruthy
            left
            rw [setStatus_pid, setPid_job]
          · push_neg at hok
            have h : (abortSparv e w).1 = { e with cmds := e.cmds ++ [RemoteCmd.killTerm p] } := by
              unfold abortSparv ssh
              simp [hw2, hr, hp, h0, hok.1, hok.2.1, hok.2.2]
            rw [h]
            intro q hq q0
            exact hinv q hq q0
    · have hr2 : e.job.status.is_running = false := by
        cases hb : e.job.status.is_running
        · rfl
        · exact absurd hb hr
      have h : (abortSparv e w).1 = e := by
        unfold abortSparv
        simp [hw2, hr2]
      rw [h]
      exact hinv

theorem pinv_processRunning (e : Eff) (w : World) (hinv : PidInv e) :
    PidInv (processRunning e w).1 := by
  by_cases hb : (probePid e w).2 = true
  · have hres : (processRunning e w).1 = (probePid e w).1 := by
      unfold processRunning
      simp [hb]
    rw [hres]
    have hj := probePid_true_job e w hb
    intro p hp h0
    rw [hj] at hp
    rw [hj]
    exact hinv p hp h0
  · have hbf : (probePid e w).2 = false := by
      cases hx : (probePid e w).2
      · rfl
      · exact absurd hx hb
    have huntr := probePid_false_untruthy e w hbf
    obtain ⟨_, hgp, _⟩ := getOutput_job_frame (probePid e w).1 w
    have huntr2 : (getOutput (probePid e w).1 w).1.job.pid = Option.none ∨
        (getOutput (probePid e w).1 w).1.job.pid = some 0 := by
      rw [hgp]
      exact huntr
    unfold processRunning
    simp only [hbf, Bool.false_eq_true, if_false]
    split
    next => exact pidInv_untruthy huntr2
    next =>
      split
      next =>
        split
        next =>
          split
          next => exact pidInv_untruthy (by rw [setStatus_pid]; exact huntr2)
          next => exact pidInv_untruthy (by rw [setStatus_pid]; exact huntr2)
        next =>
          split
          next => exact pidInv_untruthy (by rw [setStatus_pid]; exact huntr2)
          next => exact pidInv_untruthy huntr2
      next => exact pidInv_untruthy (by rw [setStatus_pid]; exact huntr2)

theorem pinv_removeJob (e : Eff) (w : World) (b : Bool) (hinv : PidInv e) :
    PidInv (removeJob e w b).1 := by
  unfold removeJob
  split
  next =>
    split
    next =>
      dsimp only
      split
      next => exact fun p hp h0 => pinv_abortSparv e w hinv p hp h0
      next => exact fun p hp h0 => pinv_abortSparv e w hinv p hp h0
      next => exact fun p hp h0 => pinv_abortSparv e w hinv p hp h0
    next => exact hinv
  next => exact hinv

theorem pinv_step {e e2 : Eff} (hinv : PidInv e) (h : Step e e2) : PidInv e2 := by
  cases h with
  | syncToSparv w hg => exact pinv_syncToSparv e w hinv hg
  | runSparv w hg => exact pinv_runSparv e w hinv hg
  | installKorp w hg => exact pinv_installKorp e w hinv hg
  | syncResults w hg => exact pinv_syncResults e w hinv hg
  | processRunning w => exact pinv_processRunning e w hinv
  | abortSparv w => exact pinv_abortSparv e w hinv
  | getOutput w => exact pinv_getOutput e w hinv
  | secondsTaken w => exact pinv_secondsTaken e w hinv
  | cleanAll w =>
    intro p hp h0
    rw [cleanAllOp_job] at hp
    rw [cleanAllOp_job]
    exact hinv p hp h0
  | cleanExport w =>
    intro p hp h0
    rw [cleanExportOp_job] at hp
    rw [cleanExportOp_job]
    exact hinv p hp h0
  | removeJob w b => exact pinv_removeJob e w b hinv

/-- A fresh job record over an empty store. -/
def c4Init : Eff :=
  mkEff (freshJob "c" Option.none Option.none Option.none Option.none Option.none Option.none)
    emptyStore

/-- A world starting the run successfully with echoed pid 4242. -/
def c4w1 : World := mkWorld (constRemote ⟨0, "4242", ""⟩)

/-- A world whose remote commands fail with exit 1. -/
def c4w2 : World := mkWorld (constRemote ⟨1, "", "ssh failure"⟩)

/-- Counterexample to C4 as stated: starting from a fresh record,
run_sparv succeeds (annotating, pid 4242); invoking run_sparv again
and failing moves the status to error without clearing the pid, so a
state reachable through the operations holds a non-null remote_pid
outside annotating and installing, and the operation moved the status
out of those states without clearing it. -/
theorem C4_counterexample :
    ((runSparv c4Init c4w1).1.job.status = Status.annotating ∧
     (runSparv c4Init c4w1).1.job.pid = some 4242) ∧
    (runSparv (runSparv c4Init c4w1).1 c4w2).1.job.status = Status.error ∧
    (runSparv (runSparv c4Init c4w1).1 c4w2).1.job.pid = some 4242 ∧
    Status.is_running Status.error = false := by
  refine ⟨⟨?_, ?_⟩, ?_, ?_, ?_⟩ <;> decide

/-- C4 amended: under the invocation discipline the spec imposes (the
start and sync operations only run on jobs with no running remote
process; poll, abort, output reading, time accounting, cleaning and
removal may run at any time), every state reachable from a fresh
record satisfies: a non-null and nonzero remote_pid is recorded only
while the status is annotating or installing.  The nonzero proviso is
forced by Python truthiness: a pid echo of zero is never cleared by
poll.  Unrestricted invocation violates the invariant, as the
counterexample shows. -/
theorem C4_pid_invariant_amended (e : Eff) (h : ReachableGuarded e) :
    ∀ p : Int, e.job.pid = some p → p ≠ 0 → e.job.status.is_running = true := by
  induction h with
  | init cid u c se f af io2 st q =>
    intro p hp h0
    exact absurd hp (by simp [freshJob])
  | step hr hs ih => exact pinv_step ih hs

/-- The fresh record one successful start later. -/
def c4wEff : Eff := (runSparv c4Init c4w1).1

/-- Witness for C4: the started job is reachable through a guarded
step, carries nonzero pid 4242, and is indeed running. -/
theorem C4_witness : c4wEff.job.status.is_running = true :=
  C4_pid_invariant_amended c4wEff
    (ReachableGuarded.step
      (ReachableGuarded.init "c" Option.none Option.none Option.none Option.none Option.none
        Option.none emptyStore [])
      (Step.runSparv c4Init c4w1 (by decide)))
    4242 (by decide) (by decide)

end Mink
